import Mathlib

/-!
Verification of the Ask-AI backend (fan-out query aggregator).

The JavaScript sources are shallowly embedded below: every definition is a
direct translation of a function in the repository (file and revision noted
on each definition).  Strings are modelled as Lean `String`/`List Char`;
JavaScript truthiness, nullish coalescing and `String(...)` coercion are
made explicit; network calls are modelled by oracle functions passed to the
adapters, and each adapter additionally reports how many network calls it
performed.
-/

/-! ## Definitions: shallow embedding of the sources -/

/-- Whitespace recognised by the embedding (the common JS `\s`/`trim` set). -/
def isJsWs (c : Char) : Bool :=
  c = ' ' || c = '\t' || c = '\n' || c = '\r' || c = '\x0b' || c = '\x0c'

/-- `String.prototype.trim`: drop leading and trailing whitespace. -/
def trimL (l : List Char) : List Char :=
  ((l.dropWhile isJsWs).reverse.dropWhile isJsWs).reverse

/-- `s.trim()` on strings. -/
def jsTrim (s : String) : String := String.mk (trimL s.toList)

/-- Lower-casing a character list (JS `toLowerCase`, ASCII range). -/
def lowerL (l : List Char) : List Char := l.map Char.toLower

/-- `s.toLowerCase()` on strings. -/
def jsLower (s : String) : String := String.mk (lowerL s.toList)

/-- Does the list start with the given pattern? -/
def startsL : List Char → List Char → Bool
  | [], _ => true
  | _ :: _, [] => false
  | p :: ps, c :: cs => p == c && startsL ps cs

/-- Does the list contain the pattern as a contiguous segment
(JS `String.prototype.includes` on char lists)? -/
def containsSeg (pat : List Char) : List Char → Bool
  | [] => pat.isEmpty
  | c :: rest => startsL pat (c :: rest) || containsSeg pat rest

/-- `s.includes(pat)` on strings. -/
def strContains (s pat : String) : Bool := containsSeg pat.toList s.toList

/-- The regex `5\d\d`: a literal `5` followed by two digits, anywhere. -/
def hasFiveDD : List Char → Bool
  | [] => false
  | c :: rest =>
      (c == '5' &&
        (match rest with
         | a :: b :: _ => a.isDigit && b.isDigit
         | _ => false)) || hasFiveDD rest

/-- The regex `not\s*allowed`: `not`, any run of whitespace, `allowed`. -/
def hasNotAllowed : List Char → Bool
  | [] => false
  | c :: rest =>
      (startsL "not".toList (c :: rest) &&
        startsL "allowed".toList (((c :: rest).drop 3).dropWhile isJsWs))
      || hasNotAllowed rest

/-- `mapFriendlyError` from src/index.js (revision with `permission`,
`capacity`, `ECONNRESET`, `ENETUNREACH`; identical to src/unnamed/part_000
lines 302-309).  All regex tests are case-insensitive, hence run on the
lowered message. -/
def mapFriendlyError (msg : String) : String :=
  let l := lowerL msg.toList
  if containsSeg "401".toList l || containsSeg "unauthor".toList l then
    "Auth failed (check API key)."
  else if containsSeg "403".toList l || containsSeg "forbid".toList l ||
      hasNotAllowed l || containsSeg "permission".toList l then
    "Access denied (model/region)."
  else if containsSeg "429".toList l || containsSeg "quota".toList l ||
      containsSeg "rate".toList l || containsSeg "capacity".toList l then
    "Rate limit or quota exceeded."
  else if hasFiveDD l || containsSeg "unavailable".toList l ||
      containsSeg "timeout".toList l || containsSeg "timed out".toList l ||
      containsSeg "econnreset".toList l || containsSeg "enetunreach".toList l then
    "Provider unavailable."
  else "Unexpected error: " ++ msg

/-- An ordered classification rule: a predicate on the lowered message and
the category string it produces. -/
def ErrRule : Type := (List Char → Bool) × String

/-- The ordered rule table of `mapFriendlyError`, as data. -/
def errorRules : List ErrRule :=
  [ (fun l => containsSeg "401".toList l || containsSeg "unauthor".toList l,
     "Auth failed (check API key)."),
    (fun l => containsSeg "403".toList l || containsSeg "forbid".toList l ||
       hasNotAllowed l || containsSeg "permission".toList l,
     "Access denied (model/region)."),
    (fun l => containsSeg "429".toList l || containsSeg "quota".toList l ||
       containsSeg "rate".toList l || containsSeg "capacity".toList l,
     "Rate limit or quota exceeded."),
    (fun l => hasFiveDD l || containsSeg "unavailable".toList l ||
       containsSeg "timeout".toList l || containsSeg "timed out".toList l ||
       containsSeg "econnreset".toList l || containsSeg "enetunreach".toList l,
     "Provider unavailable.") ]

/-- First-match-wins evaluation of an ordered rule list; an unmatched
message falls through to the `Unexpected error:` template. -/
def classifyFirst : List ErrRule → String → String
  | [], msg => "Unexpected error: " ++ msg
  | r :: rs, msg => if r.1 (lowerL msg.toList) then r.2 else classifyFirst rs msg

/-- The fragment of JS values the request bodies use. -/
inductive JSValue where
  | undef
  | jsNull
  | str (s : String)
  | num (n : Int)
  | boolean (b : Bool)
deriving DecidableEq

/-- `String(v)` coercion. -/
def jsToString : JSValue → String
  | .undef => "undefined"
  | .jsNull => "null"
  | .str s => s
  | .num n => toString n
  | .boolean b => if b then "true" else "false"

/-- JS truthiness. -/
def jsTruthy : JSValue → Bool
  | .undef => false
  | .jsNull => false
  | .str s => !(s == "")
  | .num n => !(n == 0)
  | .boolean b => b

/-- `v ?? d` where `none` models an absent property (undefined). -/
def nullishOr (v : Option JSValue) (d : JSValue) : JSValue :=
  match v with
  | none => d
  | some .undef => d
  | some .jsNull => d
  | some w => w

/-- `a || ...` on a possibly-undefined string: keep it only if truthy. -/
def truthyStr : Option String → Option String
  | some s => if s = "" then none else some s
  | none => none

/-- A JS `a || b || ... || dflt` chain over possibly-undefined strings. -/
def firstTruthy : List (Option String) → String → String
  | [], d => d
  | o :: rest, d =>
      match truthyStr o with
      | some s => s
      | none => firstTruthy rest d

/-- `!process.env.X`: an env var is missing when unset or empty. -/
def envAbsent (o : Option String) : Bool := (truthyStr o).isNone

/-- `process.env.X || d`. -/
def envOr (o : Option String) (d : String) : String := (truthyStr o).getD d

/-- `String(req.body?.prompt ?? "")`. -/
def promptRaw (p : Option JSValue) : String := jsToString (nullishOr p (.str ""))

/-- Truncation to the first 2000 characters (`.slice(0, 2000)`). -/
def take2000 (s : String) : String := String.mk (s.toList.take 2000)

/-- Prompt normalization of src/index.js line 283 and src/unnamed/part_001
line 319: `String(req.body?.prompt ?? "").trim().slice(0, 2000)`. -/
def normPromptCap (p : Option JSValue) : String := take2000 (jsTrim (promptRaw p))

/-- Prompt normalization of src/unnamed/part_000 line 529 (the
selection-supporting revision): `String(req.body?.prompt ?? "").trim()` —
no length cap. -/
def normPromptNoCap (p : Option JSValue) : String := jsTrim (promptRaw p)

/-- The environment variables the adapters read (API keys and model
overrides); `none` models an unset variable. -/
structure Config where
  openaiKey : Option String
  mistralKey : Option String
  groqKey : Option String
  deepseekKey : Option String
  geminiKey : Option String
  hfKey : Option String
  openaiModel : Option String
  mistralModel : Option String
  groqModel : Option String
  deepseekModel : Option String
  geminiModel : Option String

/-- Fields of a thrown axios error the adapters read: the message found in
the response body at the adapter's primary error location
(`e.response.data.error.message`, or `e.response.data.error` for the
Hugging Face adapter), the secondary body message (`e.response.data.message`),
and the transport-level `e.message`.  `none` models an absent field. -/
structure HttpErr where
  respErrMessage : Option String
  respMessage : Option String
  message : Option String
deriving DecidableEq

/-- Outcome of one outbound HTTP call. -/
inductive CallOutcome (α : Type) where
  | success (data : α)
  | failure (err : HttpErr)

/-- `r.data.choices[0]`: the message-content and completion-text fields. -/
structure ChatChoice where
  messageContent : Option String
  choiceText : Option String
deriving DecidableEq

/-- An OpenAI-compatible chat response body (`r.data.choices[0]` or absent). -/
structure ChatData where
  firstChoice : Option ChatChoice
deriving DecidableEq

/-- A network oracle for OpenAI-compatible endpoints: model and prompt in,
call outcome out. -/
def ChatNet : Type := String → String → CallOutcome ChatData

/-- `r.data?.choices?.[0]?.message?.content?.trim() ??
r.data?.choices?.[0]?.text?.trim() ?? "No content returned."`. -/
def extractChatText (d : ChatData) : String :=
  match d.firstChoice.bind (fun c => c.messageContent) with
  | some c => jsTrim c
  | none =>
      match d.firstChoice.bind (fun c => c.choiceText) with
      | some t => jsTrim t
      | none => "No content returned."

/-- A Gemini response body: `r.data.candidates[0].content.parts[0].text`. -/
structure GeminiData where
  candText : Option String
deriving DecidableEq

/-- Network oracle for the Gemini endpoint. -/
def GeminiNet : Type := String → String → CallOutcome GeminiData

/-- `r.data?.candidates?.[0]?.content?.parts?.[0]?.text?.trim() ?? "No content returned."`. -/
def extractGeminiText (d : GeminiData) : String :=
  match d.candText with
  | some t => jsTrim t
  | none => "No content returned."

/-- One per-provider answer: `{ provider, text }`. -/
structure ProviderResult where
  provider : String
  text : String
deriving DecidableEq

/-- `askOpenAI` (src/index.js lines 53-73). -/
def askOpenAI (cfg : Config) (net : ChatNet) (prompt : String) :
    ProviderResult × Nat :=
  if envAbsent cfg.openaiKey then
    ({ provider := "OpenAI",
       text := "OpenAI placeholder response (no API key set)" }, 0)
  else
    let model := envOr cfg.openaiModel "gpt-4o-mini"
    match net model prompt with
    | .success d => ({ provider := "OpenAI", text := extractChatText d }, 1)
    | .failure e =>
        ({ provider := "OpenAI",
           text := mapFriendlyError
             (firstTruthy [e.respErrMessage, e.message] "Unknown error") }, 1)

/-- `askMistral` (src/index.js lines 75-95). -/
def askMistral (cfg : Config) (net : ChatNet) (prompt : String) :
    ProviderResult × Nat :=
  if envAbsent cfg.mistralKey then
    ({ provider := "Mistral",
       text := "Mistral placeholder response (no API key set)" }, 0)
  else
    let model := envOr cfg.mistralModel "mistral-large-latest"
    match net model prompt with
    | .success d => ({ provider := "Mistral", text := extractChatText d }, 1)
    | .failure e =>
        ({ provider := "Mistral",
           text := mapFriendlyError
             (firstTruthy [e.respErrMessage, e.respMessage, e.message]
               "Unknown error") }, 1)

/-- `askDeepSeek` (src/index.js lines 139-159). -/
def askDeepSeek (cfg : Config) (net : ChatNet) (prompt : String) :
    ProviderResult × Nat :=
  if envAbsent cfg.deepseekKey then
    ({ provider := "DeepSeek",
       text := "DeepSeek placeholder response (no API key set)" }, 0)
  else
    let model := envOr cfg.deepseekModel "deepseek-chat"
    match net model prompt with
    | .success d => ({ provider := "DeepSeek", text := extractChatText d }, 1)
    | .failure e =>
        ({ provider := "DeepSeek",
           text := mapFriendlyError
             (firstTruthy [e.respErrMessage, e.message] "Unknown error") }, 1)

/-- `askGemini` (src/index.js lines 161-179). -/
def askGemini (cfg : Config) (net : GeminiNet) (prompt : String) :
    ProviderResult × Nat :=
  if envAbsent cfg.geminiKey then
    ({ provider := "Gemini",
       text := "Gemini placeholder response (no API key set)" }, 0)
  else
    let model := envOr cfg.geminiModel "gemini-1.5-flash"
    match net model prompt with
    | .success d => ({ provider := "Gemini", text := extractGeminiText d }, 1)
    | .failure e =>
        ({ provider := "Gemini",
           text := mapFriendlyError
             (firstTruthy [e.respErrMessage, e.respMessage, e.message]
               "Unknown error") }, 1)

/-- The regex `model[_\s-]?decommissioned`: `model`, an optional single
underscore/whitespace/dash, then `decommissioned`. -/
def hasModelDecomm : List Char → Bool
  | [] => false
  | c :: rest =>
      (startsL "model".toList (c :: rest) &&
        (startsL "decommissioned".toList ((c :: rest).drop 5) ||
          (match (c :: rest).drop 5 with
           | d :: ds =>
               (d == '_' || d == '-' || isJsWs d) &&
                 startsL "decommissioned".toList ds
           | [] => false)))
      || hasModelDecomm rest

/-- `/decommissioned|not supported|model[_\s-]?decommissioned/i.test(msg)`. -/
def isDecommissionedMsg (s : String) : Bool :=
  let l := lowerL s.toList
  containsSeg "decommissioned".toList l ||
    containsSeg "not supported".toList l || hasModelDecomm l

/-- The ordered fallback model list of `askGroq`. -/
def groqFallbacks : List String := ["llama-3.3-70b-versatile", "mistral-saba-24b"]

/-- The fallback loop of `askGroq`: walk the fallback list, skip the entry
equal to the primary model, return the first successful extraction; count
the network calls made. -/
def tryFallbacks (net : ChatNet) (prompt primary : String) :
    List String → Option ProviderResult × Nat
  | [] => (none, 0)
  | fb :: rest =>
      if fb = primary then tryFallbacks net prompt primary rest
      else
        match net fb prompt with
        | .success d =>
            (some { provider := "Groq", text := extractChatText d }, 1)
        | .failure _ =>
            let r := tryFallbacks net prompt primary rest
            (r.1, r.2 + 1)

/-- `askGroq` (src/index.js lines 97-137): on a decommissioned-model error
try the fallback list, otherwise (or when every fallback also fails)
rethrow the original error into the standard classification. -/
def askGroq (cfg : Config) (net : ChatNet) (prompt : String) :
    ProviderResult × Nat :=
  if envAbsent cfg.groqKey then
    ({ provider := "Groq",
       text := "Groq placeholder response (no API key set)" }, 0)
  else
    let model := envOr cfg.groqModel "llama-3.3-70b-versatile"
    match net model prompt with
    | .success d => ({ provider := "Groq", text := extractChatText d }, 1)
    | .failure inner =>
        if isDecommissionedMsg (inner.respErrMessage.getD "") then
          match tryFallbacks net prompt model groqFallbacks with
          | (some r, n) => (r, 1 + n)
          | (none, n) =>
              ({ provider := "Groq",
                 text := mapFriendlyError
                   (firstTruthy [inner.respErrMessage, inner.message]
                     "Unknown error") }, 1 + n)
        else
          ({ provider := "Groq",
             text := mapFriendlyError
               (firstTruthy [inner.respErrMessage, inner.message]
                 "Unknown error") }, 1)

/-- `askMistral` of the Bedrock revision (src/unnamed/part_000 lines
418-437): same placeholder path, but the catch block classifies only
`e?.message`. -/
def askMistralB (cfg : Config) (net : ChatNet) (prompt : String) :
    ProviderResult × Nat :=
  if envAbsent cfg.mistralKey then
    ({ provider := "Mistral",
       text := "Mistral placeholder response (no API key set)" }, 0)
  else
    let model := envOr cfg.mistralModel "mistral-large-latest"
    match net model prompt with
    | .success d => ({ provider := "Mistral", text := extractChatText d }, 1)
    | .failure e =>
        ({ provider := "Mistral",
           text := mapFriendlyError ((truthyStr e.message).getD "") }, 1)

/-- One entry of a Hugging Face inference response array. -/
structure HFItem where
  generatedText : Option String
  summaryText : Option String
deriving DecidableEq

/-- A Hugging Face response body: a JSON array, an object with an optional
`generated_text` string, or anything else. -/
inductive HFData where
  | arr (items : List HFItem)
  | obj (generatedText : Option String)
  | other
deriving DecidableEq

/-- Network oracle for the Hugging Face endpoint. -/
def HFNet : Type := String → String → CallOutcome HFData

/-- The text extraction of `askHuggingFace` (src/unnamed/part_001 lines
192-199): array `generated_text` if truthy, else an object-shaped
`generated_text` string, else array `summary_text` if truthy, else the
fixed fallback. -/
def hfExtract (d : HFData) : String :=
  match d with
  | .arr [] => "No content returned."
  | .arr (it :: _) =>
      match it.generatedText with
      | some s =>
          if s ≠ "" then jsTrim s
          else
            match it.summaryText with
            | some t => if t ≠ "" then jsTrim t else "No content returned."
            | none => "No content returned."
      | none =>
          match it.summaryText with
          | some t => if t ≠ "" then jsTrim t else "No content returned."
          | none => "No content returned."
  | .obj (some s) => jsTrim s
  | .obj none => "No content returned."
  | .other => "No content returned."

/-- `askHuggingFace` (src/unnamed/part_001 lines 181-205). -/
def askHuggingFace (cfg : Config) (net : HFNet) (prompt : String) :
    ProviderResult × Nat :=
  if envAbsent cfg.hfKey then
    ({ provider := "Hugging Face",
       text := "Hugging Face placeholder response (no API key set)" }, 0)
  else
    match net "mistralai/Mistral-7B-Instruct-v0.2" prompt with
    | .success d => ({ provider := "Hugging Face", text := hfExtract d }, 1)
    | .failure e =>
        ({ provider := "Hugging Face",
           text := "Hugging Face error: " ++
             firstTruthy [e.respErrMessage, e.message] "Unknown error" }, 1)

/-- The inbound request body fields the `/ask` handlers read.
`providers` is `some l` exactly when `Array.isArray(req.body?.providers)`
holds (the handler replaces any non-array value by `null`). -/
structure AskBody where
  prompt : Option JSValue
  providers : Option (List JSValue)

/-- The JSON response of `/ask`. -/
structure AskResponse where
  prompt : String
  answers : List ProviderResult
deriving DecidableEq

/-- Outcome of running one dispatched adapter job: its promise either
fulfills with a result or rejects with a value whose `message`-like string
is recorded (`none` when absent). -/
inductive JobOutcome where
  | fulfilled (r : ProviderResult)
  | rejected (errMessage : Option String)

/-- `canonicalProviderId` (src/unnamed/part_000 lines 312-314):
`String(id || "").trim().toLowerCase()`. -/
def canonicalProviderId (v : JSValue) : String :=
  jsLower (jsTrim (jsToString (if jsTruthy v then v else .str "")))

/-- The provider registry of the selection-supporting revision
(`jobsByKey`, src/unnamed/part_000 lines 536-543). -/
def jobsKeysR3 : List String :=
  ["mistral", "groq", "gemini", "bedrock_claude_sonnet", "bedrock_nova_micro"]

/-- Key resolution of src/unnamed/part_000 lines 532-547: a non-empty
`providers` array is normalized entrywise and filtered against the
registry; an absent, non-array or empty selection runs the full registry. -/
def resolveKeysR3 (providers : Option (List JSValue)) : List String :=
  match providers with
  | none => jobsKeysR3
  | some [] => jobsKeysR3
  | some l =>
      (l.map canonicalProviderId).filter (fun k => jobsKeysR3.contains k)

/-- The per-key `try`/`catch` wrapper of src/unnamed/part_000 lines
550-556: a fulfilled job keeps its result, a rejected one becomes
`{ provider: String(k), text: mapFriendlyError(e?.message) }`
(`mapFriendlyError` coerces a missing message to the empty string). -/
def settleOneR3 (outcome : String → JobOutcome) (k : String) : ProviderResult :=
  match outcome k with
  | .fulfilled r => r
  | .rejected m =>
      { provider := k, text := mapFriendlyError ((truthyStr m).getD "") }

/-- `Promise.all` over the resolved keys, in dispatch order. -/
def runKeysR3 (outcome : String → JobOutcome) (keys : List String) :
    List ProviderResult :=
  keys.map (settleOneR3 outcome)

/-- The `/ask` handler of src/unnamed/part_000 lines 528-560. -/
def askHandlerR3 (body : AskBody) (outcome : String → JobOutcome) :
    AskResponse :=
  { prompt := normPromptNoCap body.prompt,
    answers := runKeysR3 outcome (resolveKeysR3 body.providers) }

/-- The fixed dispatch list of src/index.js lines 284-291. -/
def jobsNamesV1 : List String := ["OpenAI", "Mistral", "Groq", "DeepSeek", "Gemini"]

/-- The `Promise.allSettled` mapping of src/index.js lines 292-297: a
fulfilled job keeps its value; a rejected one becomes
`{ provider, text: mapFriendlyError(r.reason || "Unknown error") }`. -/
def settleOneV1 (outcome : String → JobOutcome) (name : String) :
    ProviderResult :=
  match outcome name with
  | .fulfilled r => r
  | .rejected m =>
      { provider := name,
        text := mapFriendlyError ((truthyStr m).getD "Unknown error") }

/-- The `/ask` handler of src/index.js lines 282-299. -/
def askHandlerV1 (body : AskBody) (outcome : String → JobOutcome) :
    AskResponse :=
  { prompt := normPromptCap body.prompt,
    answers := jobsNamesV1.map (settleOneV1 outcome) }

/-- Tag a list with dispatch indices starting at `n`. -/
def taggedFrom (n : Nat) : List α → List (Nat × α)
  | [] => []
  | a :: l => (n, a) :: taggedFrom (n + 1) l

/-- Tag a list with dispatch indices `0, 1, ...`. -/
def tagged (l : List α) : List (Nat × α) := taggedFrom 0 l

/-- Insertion step of sorting by completion time. -/
def insertByTime (time : Nat → Nat) (e : Nat × α) :
    List (Nat × α) → List (Nat × α)
  | [] => [e]
  | x :: xs =>
      if time e.1 ≤ time x.1 then e :: x :: xs
      else x :: insertByTime time e xs

/-- Sort tagged jobs by completion time: the order in which the event loop
settles them. -/
def sortByTime (time : Nat → Nat) : List (Nat × α) → List (Nat × α)
  | [] => []
  | x :: xs => insertByTime time x (sortByTime time xs)

/-- The completion sequence of the dispatched jobs under a completion-time
assignment. -/
def completionEvents (time : Nat → Nat) (jobs : List α) : List (Nat × α) :=
  sortByTime time (tagged jobs)

/-- Collect settled values back into their dispatch slots. -/
def collectSlots (n : Nat) (events : List (Nat × α)) : List (Option α) :=
  (List.range n).map (fun i => (events.find? (fun e => e.1 == i)).map (fun e => e.2))

/-- The response array produced after all jobs settle. -/
def settleAll (time : Nat → Nat) (jobs : List α) : List (Option α) :=
  collectSlots jobs.length (completionEvents time jobs)

/-- A normalized directory entry (`normCompany`, src/index.js lines
193-202, guarantees string fields and a string array for use cases). -/
structure Company where
  name : String
  category : String
  summary : String
  website : String
  useCases : List String
deriving DecidableEq

/-- Query normalization of src/index.js line 246:
`(req.query.q ?? "").toString().trim().toLowerCase()`. -/
def queryNormV1 (q : Option JSValue) : String :=
  jsLower (jsTrim (jsToString (nullishOr q (.str ""))))

/-- `const match = (s) => s && s.toLowerCase().includes(q)` (src/index.js
line 248), read as a boolean. -/
def matchQ (q : String) (s : String) : Bool :=
  !(s == "") && strContains (jsLower s) q

/-- The `/ai-directory/search` filter of src/index.js lines 245-257: empty
query returns the whole directory, otherwise keep entries matching in
name, category, summary, website or some use-cases entry. -/
def searchDirV1 (rawQ : Option JSValue) (items : List Company) : List Company :=
  let q := queryNormV1 rawQ
  if q = "" then items
  else
    items.filter (fun c =>
      matchQ q c.name || matchQ q c.category || matchQ q c.summary ||
      matchQ q c.website || c.useCases.any (matchQ q))

/-- Query normalization of src/unnamed/part_001 line 299:
`(req.query.q || "").toString().trim().toLowerCase()`. -/
def queryNormP1 (q : Option JSValue) : String :=
  jsLower (jsTrim (jsToString
    (match q with
     | none => .str ""
     | some v => if jsTruthy v then v else .str "")))

/-- The joined haystack of src/unnamed/part_001 lines 304-312: name,
category, summary and use-cases entries, empty fields dropped, joined with
single spaces, lowered. -/
def haystackP1 (c : Company) : String :=
  jsLower (String.intercalate " "
    (([c.name, c.category, c.summary] ++ c.useCases).filter (fun s => !(s == ""))))

/-- The `/ai-directory/search` filter of src/unnamed/part_001 lines
298-316. -/
def searchDirP1 (rawQ : Option JSValue) (items : List Company) : List Company :=
  let q := queryNormP1 rawQ
  if q = "" then items
  else items.filter (fun c => strContains (haystackP1 c) q)

/-- The spec's search predicate, following the claim's words: the query is
a case-insensitive substring of the entry's name, category or summary, or
of at least one of its use-cases entries (no other field).  `q` is the
already-normalized query. -/
def specFieldMatch (q : String) (c : Company) : Bool :=
  strContains (jsLower c.name) q || strContains (jsLower c.category) q ||
    strContains (jsLower c.summary) q ||
    c.useCases.any (fun u => strContains (jsLower u) q)

/-- The amended search predicate: like `specFieldMatch` but with the
`website` field included, as the code searches it too. -/
def specFieldMatchW (q : String) (c : Company) : Bool :=
  specFieldMatch q c || strContains (jsLower c.website) q

/-- Does a Hugging Face response body lack every recognized text
location? -/
def hfNoText : HFData → Bool
  | .arr [] => true
  | .arr (it :: _) => it.generatedText.isNone && it.summaryText.isNone
  | .obj g => g.isNone
  | .other => true

/-! ## Theorems -/

/-- C3: `mapFriendlyError` is a pure total function of the message string
equal to first-match-wins evaluation of the ordered rule table
(401/unauthorized, then 403/forbidden/not-allowed/permission, then
429/quota/rate/capacity, then 5xx/unavailable/timeout/connection errors,
else the `Unexpected error:` fallback); in particular `"429"` maps to
`"Rate limit or quota exceeded."`, `"timeout"` to `"Provider unavailable."`
and `"foo bar"` to `"Unexpected error: foo bar"`. -/
theorem c3_error_classification :
    (∀ s : String, mapFriendlyError s = classifyFirst errorRules s) ∧
    mapFriendlyError "429" = "Rate limit or quota exceeded." ∧
    mapFriendlyError "Request failed with status code 429" =
      "Rate limit or quota exceeded." ∧
    mapFriendlyError "timeout" = "Provider unavailable." ∧
    mapFriendlyError "foo bar" = "Unexpected error: foo bar" := by
  refine ⟨fun s => rfl, by decide, by decide, by decide, ?_⟩
  decide

theorem insertByTime_perm (time : Nat → Nat) (e : Nat × α)
    (l : List (Nat × α)) : (insertByTime time e l).Perm (e :: l) := by
  induction l with
  | nil => simp [insertByTime]
  | cons x xs ih =>
      simp only [insertByTime]
      by_cases h : time e.1 ≤ time x.1
      · simp [h]
      · simp only [h, if_false]
        exact (ih.cons x).trans (List.Perm.swap e x xs)

theorem sortByTime_perm (time : Nat → Nat) (l : List (Nat × α)) :
    (sortByTime time l).Perm l := by
  induction l with
  | nil => simp [sortByTime]
  | cons x xs ih =>
      exact (insertByTime_perm time x (sortByTime time xs)).trans (ih.cons x)

theorem mem_taggedFrom {e : Nat × α} :
    ∀ (n : Nat) (l : List α), e ∈ taggedFrom n l →
      n ≤ e.1 ∧ l.get? (e.1 - n) = some e.2 := by
  intro n l
  induction l generalizing n with
  | nil => intro h; simp [taggedFrom] at h
  | cons a l ih =>
      intro h
      simp only [taggedFrom, List.mem_cons] at h
      rcases h with h | h
      · subst h; simp
      · obtain ⟨h1, h2⟩ := ih (n + 1) h
        refine ⟨by omega, ?_⟩
        have : e.1 - n = (e.1 - (n + 1)) + 1 := by omega
        rw [this]
        simpa using h2

theorem taggedFrom_mem_of_lt :
    ∀ (n : Nat) (l : List α) (j : Nat) (h : j < l.length),
      (n + j, l.get ⟨j, h⟩) ∈ taggedFrom n l := by
  intro n l
  induction l generalizing n with
  | nil => intro j h; simp at h
  | cons a l ih =>
      intro j h
      cases j with
      | zero => simp [taggedFrom]
      | succ j =>
          have hj : j < l.length := by simpa using h
          have := ih (n + 1) j hj
          simp only [taggedFrom, List.mem_cons]
          right
          have harith : n + (j + 1) = (n + 1) + j := by omega
          rw [harith]
          simpa using this

theorem find?_events_eq {events : List (Nat × α)} {jobs : List α}
    (hp : events.Perm (tagged jobs)) (i : Nat) (h : i < jobs.length) :
    events.find? (fun e => e.1 == i) = some (i, jobs.get ⟨i, h⟩) := by
  have hmem : ((i : Nat), jobs.get ⟨i, h⟩) ∈ events := by
    have := taggedFrom_mem_of_lt 0 jobs i h
    simp only [Nat.zero_add] at this
    exact hp.mem_iff.mpr this
  have hsome : (events.find? (fun e => e.1 == i)).isSome := by
    rw [List.find?_isSome]
    exact ⟨_, hmem, by simp⟩
  obtain ⟨e, he⟩ := Option.isSome_iff_exists.mp hsome
  have hpe := List.find?_some he
  have hei : e.1 = i := by simpa using hpe
  have hmem2 : e ∈ tagged jobs := hp.mem_iff.mp (List.mem_of_find?_eq_some he)
  obtain ⟨-, hget⟩ := mem_taggedFrom 0 jobs hmem2
  rw [hei] at hget
  simp only [Nat.sub_zero] at hget
  have hget2 : jobs.get? i = some (jobs.get ⟨i, h⟩) := List.get?_eq_get h
  rw [hget2] at hget
  have he2 : e.2 = jobs.get ⟨i, h⟩ := by
    have := hget.symm
    simpa using this
  rw [he]
  congr 1
  calc e = (e.1, e.2) := rfl
    _ = (i, jobs.get ⟨i, h⟩) := by rw [hei, he2]

theorem settleAll_eq_dispatch_order (time : Nat → Nat) (jobs : List α) :
    settleAll time jobs = jobs.map some := by
  have hperm : (completionEvents time jobs).Perm (tagged jobs) :=
    sortByTime_perm time (tagged jobs)
  apply List.ext_get
  · simp [settleAll, collectSlots]
  · intro i h1 h2
    have hi : i < jobs.length := by
      simpa [settleAll, collectSlots] using h1
    simp only [settleAll, collectSlots, List.get_map, List.get_range]
    rw [find?_events_eq hperm i hi]
    simp

/-- C1: for every request body (every prompt, every provider selection,
including absent, non-array or empty selections, which resolve to the full
registry) and every combination of per-adapter outcomes (fulfilled or
rejected), the aggregate response contains exactly one `ProviderResult`
per resolved adapter — its `answers` length equals the number of resolved
keys — and per-adapter failure is absorbed into a result rather than
thrown (the handler is a total function in both the selection-supporting
revision and the fixed-registry revision of `/ask`). -/
theorem c1_one_result_per_resolved_adapter :
    (∀ (body : AskBody) (outcome : String → JobOutcome),
        (askHandlerR3 body outcome).answers.length =
          (resolveKeysR3 body.providers).length) ∧
    resolveKeysR3 none = jobsKeysR3 ∧
    resolveKeysR3 (some []) = jobsKeysR3 ∧
    (∀ (body : AskBody) (outcome : String → JobOutcome),
        (askHandlerV1 body outcome).answers.length = jobsNamesV1.length) := by
  refine ⟨fun body outcome => ?_, rfl, rfl, fun body outcome => ?_⟩
  · simp [askHandlerR3, runKeysR3]
  · simp [askHandlerV1]

/-- C2: the answers array equals the dispatched jobs in dispatch order for
every completion-time assignment (the settled-slot collection is
independent of completion order); selection order is preserved by key
resolution; and concretely, for the selection `["groq", "mistral"]` the
result in slot 0 is always the groq job's result and slot 1 the mistral
job's result, whatever the completion times (in particular when mistral
completes first). -/
theorem c2_result_order_matches_dispatch_order :
    (∀ (α : Type) (time : Nat → Nat) (jobs : List α),
        settleAll time jobs = jobs.map some) ∧
    resolveKeysR3 (some [.str "groq", .str "mistral"]) = ["groq", "mistral"] ∧
    (∀ (outcome : String → JobOutcome) (time : Nat → Nat),
        settleAll time (runKeysR3 outcome
            (resolveKeysR3 (some [.str "groq", .str "mistral"]))) =
          [some (settleOneR3 outcome "groq"),
           some (settleOneR3 outcome "mistral")]) := by
  have hsel : resolveKeysR3 (some [.str "groq", .str "mistral"]) =
      ["groq", "mistral"] := by decide
  refine ⟨fun α time jobs => settleAll_eq_dispatch_order time jobs, hsel,
    fun outcome time => ?_⟩
  rw [hsel, settleAll_eq_dispatch_order]
  simp [runKeysR3]

/-- C5 counterexample: the claim's concrete example fails on the code.
The selection `["openai", "not-a-real-provider"]` resolves to no registry
key at all — `"openai"` is not a key of `jobsByKey` — so the aggregate
returns zero results, not one. -/
theorem c5_counterexample :
    (askHandlerR3
        { prompt := some (.str "hi"),
          providers := some [.str "openai", .str "not-a-real-provider"] }
        (fun _ => .rejected none)).answers = [] ∧
    jobsKeysR3.contains "openai" = false := by
  constructor
  · decide
  · decide

/-- C5 (amended): selection entries are normalized by coercion, trimming
and lower-casing before matching; a non-empty selection is filtered
against the registry, silently dropping unknown identifiers without
error; and, with a registry member in place of `"openai"` (the registry
has keys mistral, groq, gemini, bedrock_claude_sonnet, bedrock_nova_micro),
the selection `["mistral", "not-a-real-provider"]` yields exactly one
result, for mistral. -/
theorem c5_selection_normalized_and_unknown_dropped :
    (∀ v : JSValue, canonicalProviderId v =
        jsLower (jsTrim (jsToString (if jsTruthy v then v else .str "")))) ∧
    (∀ l : List JSValue, l ≠ [] →
        resolveKeysR3 (some l) =
          (l.map canonicalProviderId).filter (fun k => jobsKeysR3.contains k)) ∧
    resolveKeysR3 (some [.str "  MISTRAL ", .str "not-a-real-provider"]) =
      ["mistral"] ∧
    (∀ outcome : String → JobOutcome,
        (askHandlerR3
            { prompt := some (.str "hi"),
              providers := some [.str "mistral", .str "not-a-real-provider"] }
            outcome).answers = [settleOneR3 outcome "mistral"]) := by
  refine ⟨fun v => rfl, fun l hl => ?_, by decide, fun outcome => ?_⟩
  · match l, hl with
    | v :: vs, _ => rfl
  · have h : resolveKeysR3 (some [.str "mistral", .str "not-a-real-provider"]) =
        ["mistral"] := by decide
    simp [askHandlerR3, runKeysR3, h]

/-- C5 witness: the amended theorem applied at the concrete selection
`["  MISTRAL ", "zzz"]`. -/
theorem c5_selection_witness :
    resolveKeysR3 (some [.str "  MISTRAL ", .str "zzz"]) =
      ([JSValue.str "  MISTRAL ", JSValue.str "zzz"].map
          canonicalProviderId).filter (fun k => jobsKeysR3.contains k) :=
  c5_selection_normalized_and_unknown_dropped.2.1
    [.str "  MISTRAL ", .str "zzz"] (by decide)

theorem dropWhile_replicate_of_neg {p : α → Bool} {a : α} (h : p a = false) :
    ∀ n, (List.replicate n a).dropWhile p = List.replicate n a := by
  intro n
  cases n with
  | zero => simp
  | succ n => simp [List.replicate_succ, List.dropWhile_cons, h]

theorem dropWhile_append_singleton {p : α → Bool} {c : α} (h : p c = false) :
    ∀ u : List α, (u ++ [c]).dropWhile p = u.dropWhile p ++ [c] := by
  intro u
  induction u with
  | nil => simp [List.dropWhile_cons, h]
  | cons x u ih =>
      by_cases hx : p x = true
      · simp [List.dropWhile_cons, hx, ih]
      · have hx2 : p x = false := by
          cases hpx : p x
          · rfl
          · exact absurd hpx hx
        simp [List.dropWhile_cons, hx2]

theorem dropWhile_idem {p : α → Bool} :
    ∀ l : List α, (l.dropWhile p).dropWhile p = l.dropWhile p := by
  intro l
  induction l with
  | nil => simp
  | cons a l ih =>
      by_cases ha : p a = true
      · simp [List.dropWhile_cons, ha, ih]
      · have ha2 : p a = false := by
          cases hpa : p a
          · rfl
          · exact absurd hpa ha
        simp [List.dropWhile_cons, ha2]

theorem head_dropWhile_false {p : α → Bool} :
    ∀ {l : List α} {c : α} {t : List α}, l.dropWhile p = c :: t → p c = false := by
  intro l
  induction l with
  | nil => intro c t h; simp at h
  | cons a l ih =>
      intro c t h
      by_cases ha : p a = true
      · rw [List.dropWhile_cons, if_pos ha] at h
        exact ih h
      · have ha2 : p a = false := by
          cases hpa : p a
          · rfl
          · exact absurd hpa ha
        rw [List.dropWhile_cons, ha2] at h
        simp only [Bool.false_eq_true, if_false, List.cons.injEq] at h
        rw [← h.1]
        exact ha2

theorem trimL_no_leading_ws (l : List Char) :
    (trimL l).dropWhile isJsWs = trimL l := by
  unfold trimL
  cases hm : l.dropWhile isJsWs with
  | nil => simp
  | cons c t =>
      have hc : isJsWs c = false := head_dropWhile_false hm
      have hrev : (c :: t).reverse = t.reverse ++ [c] := by simp
      rw [hrev, dropWhile_append_singleton hc, List.reverse_append]
      simp [List.dropWhile_cons, hc]

theorem trimL_no_trailing_ws (l : List Char) :
    ((trimL l).reverse).dropWhile isJsWs = (trimL l).reverse := by
  unfold trimL
  rw [List.reverse_reverse]
  exact dropWhile_idem _

theorem trimL_idem (l : List Char) : trimL (trimL l) = trimL l := by
  show (((trimL l).dropWhile isJsWs).reverse.dropWhile isJsWs).reverse = trimL l
  rw [trimL_no_leading_ws, trimL_no_trailing_ws, List.reverse_reverse]

theorem dropWhile_take_of_clean {p : α → Bool} {l : List α}
    (h : l.dropWhile p = l) (n : Nat) : (l.take n).dropWhile p = l.take n := by
  cases l with
  | nil => simp
  | cons c t =>
      have hc : p c = false := by
        cases hpc : p c
        · rfl
        · exfalso
          rw [List.dropWhile_cons, hpc, if_pos rfl] at h
          have hlen := congrArg List.length h
          simp at hlen
          have hle : (t.dropWhile p).length ≤ t.length :=
            (List.dropWhile_sublist p).length_le
          omega
      cases n with
      | zero => simp
      | succ n => simp [List.take_succ_cons, List.dropWhile_cons, hc]

theorem trimL_replicate_a (n : Nat) :
    trimL (List.replicate n 'a') = List.replicate n 'a' := by
  have h : isJsWs 'a' = false := by decide
  unfold trimL
  rw [dropWhile_replicate_of_neg h, List.reverse_replicate,
    dropWhile_replicate_of_neg h, List.reverse_replicate]

theorem mk_toList (l : List Char) : (String.mk l).toList = l := rfl

theorem promptRaw_str (s : String) : promptRaw (some (.str s)) = s := rfl

theorem normPromptNoCap_str (s : String) :
    normPromptNoCap (some (.str s)) = jsTrim s := rfl

theorem normPromptCap_str (s : String) :
    normPromptCap (some (.str s)) = take2000 (jsTrim s) := rfl

theorem jsTrim_toList (s : String) : (jsTrim s).toList = trimL s.toList := rfl

theorem take2000_toList (s : String) :
    (take2000 s).toList = s.toList.take 2000 := rfl

theorem trimL_sandwich (c d : Char) (m : List Char)
    (hc : isJsWs c = false) (hd : isJsWs d = false) :
    trimL (c :: (m ++ [d])) = c :: (m ++ [d]) := by
  unfold trimL
  rw [List.dropWhile_cons_of_neg (by simp [hc])]
  rw [show (c :: (m ++ [d])).reverse = d :: (m.reverse ++ [c]) from by simp]
  rw [List.dropWhile_cons_of_neg (by simp [hd])]
  rw [show (d :: (m.reverse ++ [c])).reverse = c :: (m ++ [d]) from by simp]

/-- C6 counterexample: in the selection-supporting `/ask` revision
(src/unnamed/part_000 line 529) the prompt is trimmed but not truncated:
a 2001-character prompt is echoed whole (length 2001), so it differs from
the trimmed prompt truncated to its first 2000 characters. -/
theorem c6_counterexample :
    (normPromptNoCap
        (some (.str (String.mk (List.replicate 2001 'a'))))).toList.length = 2001 ∧
    normPromptNoCap (some (.str (String.mk (List.replicate 2001 'a')))) ≠
      take2000 (jsTrim (promptRaw
        (some (.str (String.mk (List.replicate 2001 'a')))))) := by
  have e1 : (normPromptNoCap
      (some (.str (String.mk (List.replicate 2001 'a'))))).toList =
      List.replicate 2001 'a' := by
    rw [normPromptNoCap_str, jsTrim_toList, mk_toList, trimL_replicate_a]
  have hlen : (normPromptNoCap
      (some (.str (String.mk (List.replicate 2001 'a'))))).toList.length = 2001 := by
    rw [e1, List.length_replicate]
  refine ⟨hlen, fun h => ?_⟩
  have e2 : (take2000 (jsTrim (promptRaw
      (some (.str (String.mk (List.replicate 2001 'a'))))))).toList =
      (List.replicate 2001 'a').take 2000 := by
    rw [take2000_toList, jsTrim_toList, promptRaw_str, mk_toList,
      trimL_replicate_a]
  have hT := congrArg String.toList h
  rw [e1, e2] at hT
  have hL := congrArg List.length hT
  rw [List.length_replicate, List.length_take, List.length_replicate] at hL
  omega

/-- C6 (amended): the prompt is always accepted and never rejected; the
src/index.js and src/unnamed/part_001 handlers echo and forward the
trimmed prompt truncated to its first 2000 characters (so the normalized
prompt never exceeds 2000 characters, and prompts within the cap pass
through unchanged); the src/unnamed/part_000 selection-supporting handler
trims but applies no length cap; and an empty prompt is accepted — the
request is still handled, with the full registry dispatched. -/
theorem c6_prompt_truncation :
    (∀ p : Option JSValue, (normPromptCap p).toList.length ≤ 2000) ∧
    (∀ p : Option JSValue, normPromptCap p = take2000 (jsTrim (promptRaw p))) ∧
    (∀ p : Option JSValue, (jsTrim (promptRaw p)).toList.length ≤ 2000 →
        normPromptCap p = jsTrim (promptRaw p)) ∧
    (∀ p : Option JSValue, normPromptNoCap p = jsTrim (promptRaw p)) ∧
    (∀ outcome : String → JobOutcome,
        (askHandlerV1 { prompt := some (.str ""), providers := none }
            outcome).prompt = "" ∧
        (askHandlerV1 { prompt := some (.str ""), providers := none }
            outcome).answers.length = 5) := by
  refine ⟨fun p => ?_, fun p => rfl, fun p h => ?_, fun p => rfl,
    fun outcome => ⟨rfl, ?_⟩⟩
  · show ((trimL (promptRaw p).toList).take 2000).length ≤ 2000
    simp
  · show String.mk ((trimL (promptRaw p).toList).take 2000) =
      String.mk (trimL (promptRaw p).toList)
    have h2 : (trimL (promptRaw p).toList).length ≤ 2000 := h
    rw [List.take_of_length_le h2]
  · simp [askHandlerV1, jobsNamesV1]

/-- C6 witness: the amended theorem's pass-through conjunct at the
concrete prompt `"hi"`, whose trimmed form is within the cap. -/
theorem c6_prompt_truncation_witness :
    normPromptCap (some (.str "hi")) =
      jsTrim (promptRaw (some (.str "hi"))) :=
  c6_prompt_truncation.2.2.1 (some (.str "hi")) (by decide)

/-- C10 counterexample: trimming happens before truncation, so the echoed
prompt of the truncating handlers can end in whitespace: for a prompt of
1999 `a`s followed by `" bb"`, the normalized prompt is the 1999 `a`s plus
a trailing space — it is not trim-idempotent and its last character is a
space. -/
theorem c10_counterexample :
    jsTrim (normPromptCap (some (.str (String.mk
        (List.replicate 1999 'a' ++ [' ', 'b', 'b']))))) ≠
      normPromptCap (some (.str (String.mk
        (List.replicate 1999 'a' ++ [' ', 'b', 'b'])))) ∧
    (normPromptCap (some (.str (String.mk
        (List.replicate 1999 'a' ++ [' ', 'b', 'b']))))).toList.getLast? =
      some ' ' := by
  have ha : isJsWs 'a' = false := by decide
  have hb : isJsWs 'b' = false := by decide
  have hsp : isJsWs ' ' = true := by decide
  have hshape : List.replicate 1999 'a' ++ ([' ', 'b', 'b'] : List Char) =
      'a' :: ((List.replicate 1998 'a' ++ [' ', 'b']) ++ ['b']) := by
    rw [show (1999 : Nat) = 1998 + 1 from rfl, List.replicate_succ,
      List.cons_append, List.append_assoc]
    rfl
  have htrim : trimL (List.replicate 1999 'a' ++ [' ', 'b', 'b']) =
      List.replicate 1999 'a' ++ [' ', 'b', 'b'] := by
    rw [hshape]
    exact trimL_sandwich 'a' 'b' _ ha hb
  have h99 : (List.replicate 1999 'a' : List Char).length ≤ 2000 := by
    rw [List.length_replicate]
    norm_num
  have htake : (List.replicate 1999 'a' ++ [' ', 'b', 'b']).take 2000 =
      List.replicate 1999 'a' ++ [' '] := by
    rw [List.take_append_eq_append_take, List.take_of_length_le h99,
      List.length_replicate,
      show (2000 - 1999 : Nat) = 1 from by norm_num,
      show List.take 1 ([' ', 'b', 'b'] : List Char) = [' '] from rfl]
  have hnorm : (normPromptCap (some (.str (String.mk
      (List.replicate 1999 'a' ++ [' ', 'b', 'b']))))).toList =
      List.replicate 1999 'a' ++ [' '] := by
    rw [normPromptCap_str, take2000_toList, jsTrim_toList, mk_toList,
      htrim, htake]
  have hshape2 : List.replicate 1999 'a' ++ ([' '] : List Char) =
      'a' :: (List.replicate 1998 'a' ++ [' ']) := by
    rw [show (1999 : Nat) = 1998 + 1 from rfl, List.replicate_succ,
      List.cons_append]
  have htrim2 : trimL (List.replicate 1999 'a' ++ [' ']) =
      List.replicate 1999 'a' := by
    unfold trimL
    rw [hshape2, List.dropWhile_cons_of_neg (by simp [ha]), ← hshape2]
    rw [show (List.replicate 1999 'a' ++ ([' '] : List Char)).reverse =
      ' ' :: List.replicate 1999 'a' from by
        rw [List.reverse_append, List.reverse_replicate]
        rfl]
    rw [List.dropWhile_cons_of_pos (by simp [hsp]),
      dropWhile_replicate_of_neg ha, List.reverse_replicate]
  constructor
  · intro h
    have hT := congrArg String.toList h
    rw [jsTrim_toList, hnorm, htrim2] at hT
    have hL := congrArg List.length hT
    rw [List.length_replicate, List.length_append, List.length_replicate]
      at hL
    simp at hL
  · rw [hnorm]
    exact List.getLast?_concat _

/-- C10 (amended): the prompt value is coerced, never rejected — an
absent, undefined or null prompt becomes the empty string, any other value
is converted with `String(...)` — and the coerced prompt is trimmed before
use, so the echoed prompt never has leading whitespace, and in the
non-truncating revision it is fully trim-idempotent (no trailing
whitespace either); in the truncating revisions trimming happens before
the 2000-character cut, so truncation may leave one trailing interior
space (see the counterexample). -/
theorem c10_prompt_coercion :
    (∀ (body : AskBody) (outcome : String → JobOutcome),
        (askHandlerV1 body outcome).prompt =
          take2000 (jsTrim (jsToString (nullishOr body.prompt (.str "")))) ∧
        (askHandlerR3 body outcome).prompt =
          jsTrim (jsToString (nullishOr body.prompt (.str "")))) ∧
    (∀ p : Option JSValue, jsTrim (normPromptNoCap p) = normPromptNoCap p) ∧
    (∀ p : Option JSValue,
        (normPromptCap p).toList.dropWhile isJsWs = (normPromptCap p).toList) ∧
    normPromptCap none = "" ∧
    normPromptCap (some .undef) = "" ∧
    normPromptCap (some .jsNull) = "" ∧
    normPromptCap (some (.num 5)) = "5" ∧
    normPromptCap (some (.boolean true)) = "true" := by
  refine ⟨fun body outcome => ⟨rfl, rfl⟩, fun p => ?_, fun p => ?_,
    by decide, by decide, by decide, by decide, by decide⟩
  · show String.mk (trimL (trimL (promptRaw p).toList)) =
      String.mk (trimL (promptRaw p).toList)
    rw [trimL_idem]
  · show ((trimL (promptRaw p).toList).take 2000).dropWhile isJsWs =
      (trimL (promptRaw p).toList).take 2000
    exact dropWhile_take_of_clean (trimL_no_leading_ws _) 2000

/-- C4: for every adapter whose required credential is unset (or empty,
which JS truthiness treats the same), invoking the adapter with any prompt
and any network behaviour returns the fixed placeholder text naming the
provider and stating no credential is configured, as a normal success
result, with zero outbound network calls. -/
theorem c4_missing_credential_placeholder :
    (∀ (cfg : Config) (net : ChatNet) (prompt : String),
        envAbsent cfg.openaiKey = true →
        askOpenAI cfg net prompt =
          ({ provider := "OpenAI",
             text := "OpenAI placeholder response (no API key set)" }, 0)) ∧
    (∀ (cfg : Config) (net : ChatNet) (prompt : String),
        envAbsent cfg.mistralKey = true →
        askMistral cfg net prompt =
          ({ provider := "Mistral",
             text := "Mistral placeholder response (no API key set)" }, 0)) ∧
    (∀ (cfg : Config) (net : ChatNet) (prompt : String),
        envAbsent cfg.groqKey = true →
        askGroq cfg net prompt =
          ({ provider := "Groq",
             text := "Groq placeholder response (no API key set)" }, 0)) ∧
    (∀ (cfg : Config) (net : ChatNet) (prompt : String),
        envAbsent cfg.deepseekKey = true →
        askDeepSeek cfg net prompt =
          ({ provider := "DeepSeek",
             text := "DeepSeek placeholder response (no API key set)" }, 0)) ∧
    (∀ (cfg : Config) (net : GeminiNet) (prompt : String),
        envAbsent cfg.geminiKey = true →
        askGemini cfg net prompt =
          ({ provider := "Gemini",
             text := "Gemini placeholder response (no API key set)" }, 0)) ∧
    (∀ (cfg : Config) (net : ChatNet) (prompt : String),
        envAbsent cfg.mistralKey = true →
        askMistralB cfg net prompt =
          ({ provider := "Mistral",
             text := "Mistral placeholder response (no API key set)" }, 0)) ∧
    (∀ (cfg : Config) (net : HFNet) (prompt : String),
        envAbsent cfg.hfKey = true →
        askHuggingFace cfg net prompt =
          ({ provider := "Hugging Face",
             text := "Hugging Face placeholder response (no API key set)" },
            0)) := by
  refine ⟨fun cfg net prompt h => ?_, fun cfg net prompt h => ?_,
    fun cfg net prompt h => ?_, fun cfg net prompt h => ?_,
    fun cfg net prompt h => ?_, fun cfg net prompt h => ?_,
    fun cfg net prompt h => ?_⟩
  · simp [askOpenAI, h]
  · simp [askMistral, h]
  · simp [askGroq, h]
  · simp [askDeepSeek, h]
  · simp [askGemini, h]
  · simp [askMistralB, h]
  · simp [askHuggingFace, h]

/-- C4 witness: the OpenAI adapter with no configured key returns the
placeholder and performs no network call, for a concrete configuration
and oracle. -/
theorem c4_missing_credential_witness :
    askOpenAI
      { openaiKey := none, mistralKey := none, groqKey := none,
        deepseekKey := none, geminiKey := none, hfKey := none,
        openaiModel := none, mistralModel := none, groqModel := none,
        deepseekModel := none, geminiModel := none }
      (fun _ _ => .failure
        { respErrMessage := none, respMessage := none, message := none })
      "hello" =
      ({ provider := "OpenAI",
         text := "OpenAI placeholder response (no API key set)" }, 0) :=
  c4_missing_credential_placeholder.1 _ _ "hello" (by decide)

/-- C9: when a call succeeds but the payload carries no text at any of the
adapter's fallback locations, the adapter returns a success result whose
text is exactly `"No content returned."`; the locations are tried in
order (primary message-content field first, then the secondary
completion-text field); shown for the OpenAI-compatible extraction and
adapter and for the Hugging Face extraction and adapter. -/
theorem c9_no_content_fallback :
    (∀ d : ChatData,
        d.firstChoice.bind (fun c => c.messageContent) = none →
        d.firstChoice.bind (fun c => c.choiceText) = none →
        extractChatText d = "No content returned.") ∧
    (∀ (d : ChatData) (c : ChatChoice) (s : String),
        d.firstChoice = some c → c.messageContent = some s →
        extractChatText d = jsTrim s) ∧
    (∀ (d : ChatData) (c : ChatChoice) (s : String),
        d.firstChoice = some c → c.messageContent = none →
        c.choiceText = some s →
        extractChatText d = jsTrim s) ∧
    (∀ (cfg : Config) (net : ChatNet) (prompt : String) (d : ChatData),
        envAbsent cfg.openaiKey = false →
        net (envOr cfg.openaiModel "gpt-4o-mini") prompt = .success d →
        d.firstChoice.bind (fun c => c.messageContent) = none →
        d.firstChoice.bind (fun c => c.choiceText) = none →
        askOpenAI cfg net prompt =
          ({ provider := "OpenAI", text := "No content returned." }, 1)) ∧
    (∀ d : HFData, hfNoText d = true →
        hfExtract d = "No content returned.") ∧
    (∀ (cfg : Config) (net : HFNet) (prompt : String) (d : HFData),
        envAbsent cfg.hfKey = false →
        net "mistralai/Mistral-7B-Instruct-v0.2" prompt = .success d →
        hfNoText d = true →
        askHuggingFace cfg net prompt =
          ({ provider := "Hugging Face", text := "No content returned." },
            1)) := by
  have hchat : ∀ d : ChatData,
      d.firstChoice.bind (fun c => c.messageContent) = none →
      d.firstChoice.bind (fun c => c.choiceText) = none →
      extractChatText d = "No content returned." := by
    intro d h1 h2
    simp [extractChatText, h1, h2]
  have hhf : ∀ d : HFData, hfNoText d = true →
      hfExtract d = "No content returned." := by
    intro d h
    cases d with
    | arr items =>
        cases items with
        | nil => rfl
        | cons it rest =>
            simp only [hfNoText, Bool.and_eq_true, Option.isNone_iff_eq_none]
              at h
            simp [hfExtract, h.1, h.2]
    | obj g =>
        simp only [hfNoText, Option.isNone_iff_eq_none] at h
        simp [hfExtract, h]
    | other => rfl
  refine ⟨hchat, fun d c s hd hc => ?_, fun d c s hd hc ht => ?_,
    fun cfg net prompt d habs hnet h1 h2 => ?_, hhf,
    fun cfg net prompt d habs hnet h => ?_⟩
  · simp [extractChatText, hd, hc]
  · simp [extractChatText, hd, hc, ht]
  · have hempty := hchat d h1 h2
    simp [askOpenAI, habs, hnet, hempty]
  · have hempty := hhf d h
    simp [askHuggingFace, habs, hnet, hempty]

/-- C9 witness: a successful OpenAI-shaped response whose first choice has
neither a message content nor a completion text yields exactly
`"No content returned."` as a success result after one call. -/
theorem c9_no_content_witness :
    askOpenAI
      { openaiKey := some "k", mistralKey := none, groqKey := none,
        deepseekKey := none, geminiKey := none, hfKey := none,
        openaiModel := none, mistralModel := none, groqModel := none,
        deepseekModel := none, geminiModel := none }
      (fun _ _ => .success
        { firstChoice := some { messageContent := none, choiceText := none } })
      "hello" =
      ({ provider := "OpenAI", text := "No content returned." }, 1) :=
  c9_no_content_fallback.2.2.2.1 _ _ "hello"
    { firstChoice := some { messageContent := none, choiceText := none } }
    (by decide) rfl rfl rfl

theorem tryFallbacks_none (net : ChatNet) (prompt primary : String) :
    ∀ l : List String,
      (∀ fb ∈ l, fb ≠ primary → ∃ e, net fb prompt = .failure e) →
      (tryFallbacks net prompt primary l).1 = none := by
  intro l
  induction l with
  | nil => intro _; rfl
  | cons fb rest ih =>
      intro h
      by_cases hfb : fb = primary
      · simp only [tryFallbacks, hfb, if_pos rfl]
        exact ih fun x hx hne => h x (List.mem_cons_of_mem _ hx) hne
      · obtain ⟨e, he⟩ := h fb (List.mem_cons_self _ _) hfb
        simp only [tryFallbacks, hfb, if_false, he]
        exact ih fun x hx hne => h x (List.mem_cons_of_mem _ hx) hne

theorem tryFallbacks_first (net : ChatNet) (prompt primary : String)
    (d : ChatData) :
    ∀ (l1 : List String) (fb : String) (l2 : List String),
      (∀ x ∈ l1, x = primary ∨ ∃ e, net x prompt = .failure e) →
      fb ≠ primary → net fb prompt = .success d →
      (tryFallbacks net prompt primary (l1 ++ fb :: l2)).1 =
        some { provider := "Groq", text := extractChatText d } := by
  intro l1
  induction l1 with
  | nil =>
      intro fb l2 _ hfb hnet
      simp [tryFallbacks, hfb, hnet]
  | cons x l1 ih =>
      intro fb l2 h hfb hnet
      by_cases hxp : x = primary
      · simp only [List.cons_append, tryFallbacks, hxp, if_pos rfl]
        exact ih fb l2 (fun y hy => h y (List.mem_cons_of_mem _ hy)) hfb hnet
      · rcases h x (List.mem_cons_self _ _) with hx | ⟨e, he⟩
        · exact absurd hx hxp
        · simp only [List.cons_append, tryFallbacks, hxp, if_false, he]
          exact ih fb l2 (fun y hy => h y (List.mem_cons_of_mem _ hy)) hfb hnet

/-- C7: the Groq adapter retries on decommissioned-model errors only: a
successful primary call is returned directly (one call); a failure whose
response error message does not match the decommissioned pattern is
classified immediately (one call, no retry); on a decommissioned-pattern
failure the adapter walks the ordered fallback list, skipping the entry
equal to the primary model, stops at the first fallback that succeeds and
returns its extracted text; if every fallback fails too, the original
error is rethrown and classified by `mapFriendlyError`; and no other
adapter ever performs more than one network call. -/
theorem c7_groq_fallback_retry :
    (∀ (cfg : Config) (net : ChatNet) (prompt : String) (d : ChatData),
        envAbsent cfg.groqKey = false →
        net (envOr cfg.groqModel "llama-3.3-70b-versatile") prompt =
          .success d →
        askGroq cfg net prompt =
          ({ provider := "Groq", text := extractChatText d }, 1)) ∧
    (∀ (cfg : Config) (net : ChatNet) (prompt : String) (e : HttpErr),
        envAbsent cfg.groqKey = false →
        net (envOr cfg.groqModel "llama-3.3-70b-versatile") prompt =
          .failure e →
        isDecommissionedMsg (e.respErrMessage.getD "") = false →
        askGroq cfg net prompt =
          ({ provider := "Groq",
             text := mapFriendlyError
               (firstTruthy [e.respErrMessage, e.message] "Unknown error") },
            1)) ∧
    (∀ (cfg : Config) (net : ChatNet) (prompt : String) (e : HttpErr)
        (l1 : List String) (fb : String) (l2 : List String) (d : ChatData),
        envAbsent cfg.groqKey = false →
        net (envOr cfg.groqModel "llama-3.3-70b-versatile") prompt =
          .failure e →
        isDecommissionedMsg (e.respErrMessage.getD "") = true →
        groqFallbacks = l1 ++ fb :: l2 →
        (∀ x ∈ l1, x = envOr cfg.groqModel "llama-3.3-70b-versatile" ∨
            ∃ e2, net x prompt = .failure e2) →
        fb ≠ envOr cfg.groqModel "llama-3.3-70b-versatile" →
        net fb prompt = .success d →
        (askGroq cfg net prompt).1 =
          { provider := "Groq", text := extractChatText d }) ∧
    (∀ (cfg : Config) (net : ChatNet) (prompt : String) (e : HttpErr),
        envAbsent cfg.groqKey = false →
        net (envOr cfg.groqModel "llama-3.3-70b-versatile") prompt =
          .failure e →
        isDecommissionedMsg (e.respErrMessage.getD "") = true →
        (∀ fb ∈ groqFallbacks,
            fb ≠ envOr cfg.groqModel "llama-3.3-70b-versatile" →
            ∃ e2, net fb prompt = .failure e2) →
        (askGroq cfg net prompt).1 =
          { provider := "Groq",
            text := mapFriendlyError
              (firstTruthy [e.respErrMessage, e.message] "Unknown error") }) ∧
    (∀ (cfg : Config) (net : ChatNet) (prompt : String),
        (askOpenAI cfg net prompt).2 ≤ 1) ∧
    (∀ (cfg : Config) (net : ChatNet) (prompt : String),
        (askMistral cfg net prompt).2 ≤ 1) ∧
    (∀ (cfg : Config) (net : ChatNet) (prompt : String),
        (askDeepSeek cfg net prompt).2 ≤ 1) ∧
    (∀ (cfg : Config) (net : GeminiNet) (prompt : String),
        (askGemini cfg net prompt).2 ≤ 1) ∧
    (∀ (cfg : Config) (net : ChatNet) (prompt : String),
        (askMistralB cfg net prompt).2 ≤ 1) ∧
    (∀ (cfg : Config) (net : HFNet) (prompt : String),
        (askHuggingFace cfg net prompt).2 ≤ 1) := by
  refine ⟨fun cfg net prompt d habs hnet => ?_,
    fun cfg net prompt e habs hnet hdec => ?_,
    fun cfg net prompt e l1 fb l2 d habs hnet hdec hgf hl1 hfb hnetfb => ?_,
    fun cfg net prompt e habs hnet hdec hall => ?_,
    fun cfg net prompt => ?_, fun cfg net prompt => ?_,
    fun cfg net prompt => ?_, fun cfg net prompt => ?_,
    fun cfg net prompt => ?_, fun cfg net prompt => ?_⟩
  · simp [askGroq, habs, hnet]
  · simp [askGroq, habs, hnet, hdec]
  · have hfst : (tryFallbacks net prompt
        (envOr cfg.groqModel "llama-3.3-70b-versatile") groqFallbacks).1 =
        some { provider := "Groq", text := extractChatText d } := by
      rw [hgf]
      exact tryFallbacks_first net prompt _ d l1 fb l2 hl1 hfb hnetfb
    rcases htf : tryFallbacks net prompt
        (envOr cfg.groqModel "llama-3.3-70b-versatile") groqFallbacks
      with ⟨o, n⟩
    rw [htf] at hfst
    simp only at hfst
    subst hfst
    simp [askGroq, habs, hnet, hdec, htf]
  · have hfst : (tryFallbacks net prompt
        (envOr cfg.groqModel "llama-3.3-70b-versatile") groqFallbacks).1 =
        none := tryFallbacks_none net prompt _ groqFallbacks hall
    rcases htf : tryFallbacks net prompt
        (envOr cfg.groqModel "llama-3.3-70b-versatile") groqFallbacks
      with ⟨o, n⟩
    rw [htf] at hfst
    simp only at hfst
    subst hfst
    simp [askGroq, habs, hnet, hdec, htf]
  · unfold askOpenAI
    split
    · simp
    · cases hx : net (envOr cfg.openaiModel "gpt-4o-mini") prompt <;> simp [hx]
  · unfold askMistral
    split
    · simp
    · cases hx : net (envOr cfg.mistralModel "mistral-large-latest") prompt <;> simp [hx]
  · unfold askDeepSeek
    split
    · simp
    · cases hx : net (envOr cfg.deepseekModel "deepseek-chat") prompt <;> simp [hx]
  · unfold askGemini
    split
    · simp
    · cases hx : net (envOr cfg.geminiModel "gemini-1.5-flash") prompt <;> simp [hx]
  · unfold askMistralB
    split
    · simp
    · cases hx : net (envOr cfg.mistralModel "mistral-large-latest") prompt <;> simp [hx]
  · unfold askHuggingFace
    split
    · simp
    · split <;> simp

/-- C7 witness: with the primary model failing with a decommissioned-model
message and the second fallback succeeding, the adapter answers with the
fallback's extracted text. -/
theorem c7_groq_fallback_witness :
    (askGroq
      { openaiKey := none, mistralKey := none, groqKey := some "k",
        deepseekKey := none, geminiKey := none, hfKey := none,
        openaiModel := none, mistralModel := none, groqModel := none,
        deepseekModel := none, geminiModel := none }
      (fun m _ =>
        if m = "mistral-saba-24b" then
          .success ⟨some ⟨some "fallback answer", none⟩⟩
        else
          .failure ⟨some "model decommissioned", none, none⟩)
      "hi").1 = { provider := "Groq", text := "fallback answer" } := by
  have h := c7_groq_fallback_retry.2.2.1
    { openaiKey := none, mistralKey := none, groqKey := some "k",
      deepseekKey := none, geminiKey := none, hfKey := none,
      openaiModel := none, mistralModel := none, groqModel := none,
      deepseekModel := none, geminiModel := none }
    (fun m _ =>
      if m = "mistral-saba-24b" then
        .success ⟨some ⟨some "fallback answer", none⟩⟩
      else
        .failure ⟨some "model decommissioned", none, none⟩)
    "hi"
    ⟨some "model decommissioned", none, none⟩
    ["llama-3.3-70b-versatile"] "mistral-saba-24b" []
    ⟨some ⟨some "fallback answer", none⟩⟩
    (by decide) rfl (by decide) rfl
    (fun x hx => Or.inl (by simpa using hx)) (by decide) rfl
  rw [h]
  have hext : extractChatText ⟨some ⟨some "fallback answer", none⟩⟩ =
      "fallback answer" := by decide
  rw [hext]

theorem strContains_empty (s : String) : strContains s "" = true := by
  unfold strContains
  cases h : s.toList with
  | nil => rfl
  | cons c rest => simp [containsSeg, startsL]

theorem toList_ne_nil {q : String} (h : q ≠ "") : q.toList ≠ [] := by
  intro hnil
  apply h
  cases q with
  | mk data =>
      have hd : data = [] := hnil
      rw [hd]

theorem matchQ_eq {q : String} (hq : q ≠ "") (s : String) :
    matchQ q s = strContains (jsLower s) q := by
  by_cases hs : s = ""
  · subst hs
    have h1 : matchQ q "" = false := by simp [matchQ]
    have h2 : strContains (jsLower "") q = false := by
      unfold strContains jsLower lowerL
      cases hl : q.toList with
      | nil => exact absurd hl (toList_ne_nil hq)
      | cons c rest => simp [containsSeg]
    rw [h1, h2]
  · simp [matchQ, hs]

/-- C8 counterexample: the claim excludes entries matching only in fields
other than name/category/summary/use-cases, but the code also searches the
`website` field: an entry whose only match is in its website is returned
by the search yet matches the claim's predicate in no field. -/
theorem c8_counterexample :
    searchDirV1 (some (.str "example"))
        [{ name := "", category := "", summary := "",
           website := "https://example.com", useCases := [] }] =
      [{ name := "", category := "", summary := "",
         website := "https://example.com", useCases := [] }] ∧
    specFieldMatch "example"
        { name := "", category := "", summary := "",
          website := "https://example.com", useCases := [] } = false := by
  constructor
  · decide
  · decide

/-- C8 (amended): the `/ai-directory/search` endpoint of src/index.js
returns exactly the entries for which the normalized (trimmed, lowered)
query is a case-insensitive substring of the entry's name, category,
summary, **website**, or at least one use-cases entry (an empty query
matches everything, i.e. the whole directory is returned); the earlier
src/unnamed/part_001 revision instead searches the space-joined
concatenation of name/category/summary/use-cases (website excluded there,
and a query may span adjacent joined fields). -/
theorem c8_search_field_semantics :
    (∀ (rawQ : Option JSValue) (items : List Company),
        searchDirV1 rawQ items =
          items.filter (specFieldMatchW (queryNormV1 rawQ))) ∧
    (∀ (rawQ : Option JSValue) (items : List Company),
        searchDirP1 rawQ items =
          if queryNormP1 rawQ = "" then items
          else items.filter
            (fun c => strContains (haystackP1 c) (queryNormP1 rawQ))) := by
  refine ⟨fun rawQ items => ?_, fun rawQ items => rfl⟩
  show (if queryNormV1 rawQ = "" then items
    else items.filter (fun c =>
      matchQ (queryNormV1 rawQ) c.name ||
      matchQ (queryNormV1 rawQ) c.category ||
      matchQ (queryNormV1 rawQ) c.summary ||
      matchQ (queryNormV1 rawQ) c.website ||
      c.useCases.any (matchQ (queryNormV1 rawQ)))) =
    items.filter (specFieldMatchW (queryNormV1 rawQ))
  by_cases hq : queryNormV1 rawQ = ""
  · rw [if_pos hq, hq]
    refine (List.filter_eq_self.mpr fun c _ => ?_).symm
    simp [specFieldMatchW, specFieldMatch, strContains_empty]
  · rw [if_neg hq]
    refine List.filter_congr fun c _ => ?_
    have hfun : matchQ (queryNormV1 rawQ) =
        fun u => strContains (jsLower u) (queryNormV1 rawQ) :=
      funext fun u => matchQ_eq hq u
    rw [hfun]
    simp only [specFieldMatchW, specFieldMatch]
    cases h1 : strContains (jsLower c.name) (queryNormV1 rawQ) <;>
      cases h2 : strContains (jsLower c.category) (queryNormV1 rawQ) <;>
      cases h3 : strContains (jsLower c.summary) (queryNormV1 rawQ) <;>
      cases h4 : strContains (jsLower c.website) (queryNormV1 rawQ) <;>
      simp [h1, h2, h3, h4]
